import Mathlib

/-!
Shallow embedding of `scripts/postgres-data-loader.py` (the entity-normalizing
batch loader) and proofs about it.

Modelling conventions:
* CSV rows (`csv.DictReader` dicts) become the `Row` structure; every field is a
  `String`, as in the source.
* Python `float(s)` / `int(s)` coercions become `pyFloat : String → Option ℚ`
  and `pyInt : String → Option ℤ`; a `none` result models the `ValueError`
  the Python call raises.  Monetary values are modelled exactly as rationals
  (the decimal literals occurring in the data are exactly representable; IEEE
  rounding is irrelevant to the properties proved here).  `pyFloat` covers the
  sign/digits/decimal-point forms; exponent and infinity spellings accepted by
  CPython do not occur in this loader's data and are out of scope.
* `datetime.fromisoformat` becomes `fromisoformat : String → Option PyDateTime`,
  covering the canonical `YYYY-MM-DD[{T| }HH:MM:SS]` forms produced by the
  generator; a `none` result models the `ValueError` on malformed input.
* Python `needle in hay` on strings becomes `pyIn`; `s.lower()` becomes
  `pyLower` (the transcripts are ASCII).
* Exceptions raised inside the loader become `Except LoadError`; the absence
  of a per-row `try/except` in `load_transactions` is modelled by the
  `Except` short-circuiting of the fold over rows.
* Database writes of `_insert_transaction_batch` are modelled twice, from two
  angles: as state transformers on in-memory tables (`insertTransactionBatch`,
  `insertItemBatch`) reflecting the SQL conflict clauses, and as an emitted
  event trace (`Event`, `flushEvents`) reflecting statement order and commit
  placement.
-/

namespace PgLoader

/-- Value of a list of decimal digit characters, most significant first. -/
def digitsVal (cs : List Char) : ℕ :=
  cs.foldl (fun a c => a * 10 + (c.toNat - 48)) 0

/-- Models CPython `int(s)`: optional sign followed by at least one digit;
`none` models the `ValueError`. -/
def pyInt (s : String) : Option ℤ :=
  match s.toList with
  | '-' :: ds =>
      if ds ≠ [] ∧ ds.all Char.isDigit then some (-(digitsVal ds : ℤ)) else none
  | '+' :: ds =>
      if ds ≠ [] ∧ ds.all Char.isDigit then some (digitsVal ds : ℤ) else none
  | ds =>
      if ds ≠ [] ∧ ds.all Char.isDigit then some (digitsVal ds : ℤ) else none

/-- Helper for `pyFloat`: parse an unsigned decimal (digits, optional point,
digits; at least one digit overall) into numerator and denominator, the
denominator being the power of ten of the fraction length. -/
def decimalParts (cs : List Char) : Option (ℕ × ℕ) :=
  let intPart := cs.takeWhile Char.isDigit
  let rest := cs.dropWhile Char.isDigit
  match rest with
  | [] => if intPart = [] then none else some (digitsVal intPart, 1)
  | '.' :: frac =>
      if frac.all Char.isDigit ∧ (intPart ≠ [] ∨ frac ≠ []) then
        some (digitsVal intPart * 10 ^ frac.length + digitsVal frac, 10 ^ frac.length)
      else none
  | _ => none

/-- Models CPython `float(s)` on the decimal forms this loader's data uses,
valued exactly in ℚ; `none` models the `ValueError`. -/
def pyFloat (s : String) : Option ℚ :=
  match s.toList with
  | '-' :: cs => (decimalParts cs).map (fun p => Rat.divInt (-(p.1 : ℤ)) (p.2 : ℤ))
  | '+' :: cs => (decimalParts cs).map (fun p => Rat.divInt (p.1 : ℤ) (p.2 : ℤ))
  | cs => (decimalParts cs).map (fun p => Rat.divInt (p.1 : ℤ) (p.2 : ℤ))

/-- A parsed timestamp, as far as the loader consumes it
(`datetime.fromisoformat` result; the loader reads only `.day`). -/
structure PyDateTime where
  year : ℕ
  month : ℕ
  day : ℕ
  hour : ℕ
  minute : ℕ
  second : ℕ
deriving Repr, DecidableEq, Inhabited

/-- Gregorian leap-year rule, as in CPython's `datetime` validation. -/
def isLeap (y : ℕ) : Bool :=
  (y % 4 = 0 && y % 100 ≠ 0) || y % 400 = 0

/-- Days in a month, as in CPython's `datetime` validation. -/
def daysInMonth (y m : ℕ) : ℕ :=
  if m = 2 then (if isLeap y then 29 else 28)
  else if m = 4 ∨ m = 6 ∨ m = 9 ∨ m = 11 then 30
  else 31

/-- Parse exactly two digit characters. -/
def parse2 : List Char → Option (ℕ × List Char)
  | a :: b :: rest =>
      if a.isDigit && b.isDigit then
        some ((a.toNat - 48) * 10 + (b.toNat - 48), rest)
      else none
  | _ => none

/-- Parse exactly four digit characters. -/
def parse4 : List Char → Option (ℕ × List Char)
  | a :: b :: c :: d :: rest =>
      if a.isDigit && b.isDigit && c.isDigit && d.isDigit then
        some (digitsVal [a, b, c, d], rest)
      else none
  | _ => none

/-- Consume one expected character. -/
def expectChar (c : Char) : List Char → Option (List Char)
  | x :: rest => if x = c then some rest else none
  | [] => none

/-- Models `datetime.fromisoformat` on the `YYYY-MM-DD` and
`YYYY-MM-DD{T| }HH:MM:SS` forms the generator emits, with CPython's range
validation; `none` models the `ValueError` on malformed input. -/
def fromisoformat (s : String) : Option PyDateTime := do
  let cs := s.toList
  let (y, cs) ← parse4 cs
  let cs ← expectChar '-' cs
  let (mo, cs) ← parse2 cs
  let cs ← expectChar '-' cs
  let (d, cs) ← parse2 cs
  let (h, mi, se) ←
    match cs with
    | [] => some (0, 0, 0)
    | sep :: rest =>
        if sep = 'T' ∨ sep = ' ' then do
          let (h, rest) ← parse2 rest
          let rest ← expectChar ':' rest
          let (mi, rest) ← parse2 rest
          let rest ← expectChar ':' rest
          let (se, rest) ← parse2 rest
          if rest = [] then some (h, mi, se) else none
        else none
  if 1 ≤ mo ∧ mo ≤ 12 ∧ 1 ≤ d ∧ d ≤ daysInMonth y mo ∧ h ≤ 23 ∧ mi ≤ 59 ∧ se ≤ 59 then
    some ⟨y, mo, d, h, mi, se⟩
  else none

/-- List-level string matching: does `needle` occur at the head of `hay`? -/
def startsWithL : List Char → List Char → Bool
  | [], _ => true
  | _ :: _, [] => false
  | a :: as, b :: bs => a == b && startsWithL as bs

/-- List-level substring occurrence. -/
def containsSub (needle : List Char) : List Char → Bool
  | [] => needle.isEmpty
  | b :: bs => startsWithL needle (b :: bs) || containsSub needle bs

/-- Models the Python string operator `needle in hay` (substring test; the
empty needle occurs in every string, as in Python). -/
def pyIn (needle hay : String) : Bool :=
  containsSub needle.toList hay.toList

/-- Models Python `s.lower()` (the transcripts this loader lowercases are
ASCII, where `Char.toLower` agrees with Python). -/
def pyLower (s : String) : String :=
  String.mk (s.toList.map Char.toLower)

/-- Helper for `pySplit`: split a character list at every separator, the
accumulator holding the current segment reversed. -/
def splitAux (sep : Char) : List Char → List Char → List (List Char)
  | [], acc => [acc.reverse]
  | c :: cs, acc =>
      if c = sep then acc.reverse :: splitAux sep cs []
      else splitAux sep cs (c :: acc)

/-- Models Python `s.split(sep)` for a one-character separator (as in
`row['video_objects'].split('|')`); on the empty string it yields `[""]`,
exactly as in Python. -/
def pySplit (s : String) (sep : Char) : List String :=
  (splitAux sep s.toList []).map (fun l => String.mk l)

/-- One CSV row as handed to the loader by `csv.DictReader`: every field is a
string.  Field names follow the generator's header row. -/
structure Row where
  transaction_id : String
  timestamp : String
  store_id : String
  store_name : String
  store_type : String
  region : String
  province : String
  city_municipality : String
  barangay : String
  latitude : String
  longitude : String
  economic_class : String
  customer_id : String
  gender : String
  age_bracket : String
  sku_id : String
  brand_name : String
  product_name : String
  product_category : String
  product_subcat : String
  quantity : String
  unit_price : String
  peso_value : String
  is_tbwa_client : String
  campaign_id : String
  was_substituted : String
  original_request : String
  audio_language : String
  audio_transcript : String
  video_objects : String
  weather : String
  day_of_week : String
  hour_of_day : String
deriving Repr, DecidableEq

/-- Errors of the embedded loader: a Python exception escaping the row loop.
`malformed` carries the offending field's name. -/
inductive LoadError where
  | malformed (field : String)
deriving Repr, DecidableEq

instance {ε α : Type _} [DecidableEq ε] [DecidableEq α] : DecidableEq (Except ε α) := fun x y =>
  match x, y with
  | .ok a, .ok b =>
      match decEq a b with
      | isTrue h => isTrue (h ▸ rfl)
      | isFalse h => isFalse (fun he => h (Except.ok.inj he))
  | .error e, .error f =>
      match decEq e f with
      | isTrue h => isTrue (h ▸ rfl)
      | isFalse h => isFalse (fun he => h (Except.error.inj he))
  | .ok _, .error _ => isFalse (fun he => Except.noConfusion he)
  | .error _, .ok _ => isFalse (fun he => Except.noConfusion he)

/-- One tuple of `trans_batch` (the VALUES of the `transactions` INSERT),
field names following the column list of the SQL statement. -/
structure TransRecord where
  transaction_id : String
  timestamp : PyDateTime
  store_id : String
  customer_id : Option String
  transaction_value : ℚ
  discount_amount : ℚ
  final_amount : ℚ
  payment_method : String
  duration_seconds : ℕ
  units_total : ℤ
  unique_items : ℕ
  weather : String
  day_of_week : String
  hour_of_day : ℤ
  is_holiday : Bool
  is_payday : Bool
  campaign_id : Option String
  influenced_by_campaign : Bool
deriving Repr, DecidableEq, Inhabited

/-- One tuple of `items_batch` (the VALUES of the `transaction_items`
INSERT). -/
structure ItemRecord where
  transaction_id : String
  sku_id : String
  quantity : ℤ
  unit_price : ℚ
  total_price : ℚ
  discount_applied : ℚ
  was_substituted : Bool
  original_sku_id : Option String
  substitution_reason : Option String
  is_promo : Bool
  promo_type : Option String
deriving Repr, DecidableEq, Inhabited

/-- One tuple of `audio_batch` (the VALUES of the `audio_transcripts`
INSERT). -/
structure AudioRecord where
  transaction_id : String
  audio_language : String
  audio_duration_seconds : ℕ
  audio_quality : String
  background_noise_level : String
  full_transcript : String
  transcription_confidence : ℚ
  key_phrases : List String
  request_type : String
  storeowner_influence : String
  recommendation_given : Bool
  suggestion_accepted : Bool
  sentiment_score : ℚ
  primary_intent : String
  brand_mentions : List String
  product_mentions : List String
  price_mentioned : Bool
  promo_inquiry : Bool
deriving Repr, DecidableEq, Inhabited

/-- One tuple of `video_batch` (the VALUES of the `video_signals` INSERT). -/
structure VideoRecord where
  transaction_id : String
  objects_detected : List String
  people_count : ℕ
  products_visible : List String
  shelf_visibility : String
  browsing_duration_seconds : ℕ
  products_touched : ℕ
  decision_time_seconds : ℕ
  path_taken : Option String
  lighting_quality : String
  store_organization : String
  queue_length : ℕ
  looked_at_promo : Bool
  promo_materials_visible : List String
deriving Repr, DecidableEq, Inhabited

/-- Lift a Python coercion that may raise into the loader's error monad,
naming the offending field. -/
def req (field : String) : Option α → Except LoadError α
  | some a => .ok a
  | none => .error (.malformed field)

/-- The `trans_data` tuple of the loop body of `load_transactions`, given the
parsed timestamp, the resolved customer UUID (`customer_map.get`, which is
`none` when the key is absent), and the parsed numeric fields. -/
def mkTransData (row : Row) (timestamp : PyDateTime) (customerUuid : Option String)
    (pesoValue : ℚ) (quantity hourOfDay : ℤ) : TransRecord :=
  { transaction_id := row.transaction_id
    timestamp := timestamp
    store_id := row.store_id
    customer_id := customerUuid
    transaction_value := pesoValue
    discount_amount := 0
    final_amount := pesoValue
    payment_method := "cash"
    duration_seconds := 120
    units_total := quantity
    unique_items := 1
    weather := row.weather
    day_of_week := row.day_of_week
    hour_of_day := hourOfDay
    is_holiday := false
    is_payday := timestamp.day == 15 || timestamp.day == 30
    campaign_id := if row.campaign_id = "" then none else some row.campaign_id
    influenced_by_campaign := row.campaign_id ≠ "" }

/-- The `item_data` tuple of the loop body of `load_transactions`. -/
def mkItemData (row : Row) (quantity : ℤ) (unitPrice pesoValue : ℚ)
    (wasSubstituted : ℤ) : ItemRecord :=
  { transaction_id := row.transaction_id
    sku_id := row.sku_id
    quantity := quantity
    unit_price := unitPrice
    total_price := pesoValue
    discount_applied := 0
    was_substituted := wasSubstituted ≠ 0
    original_sku_id := if row.original_request = "" then none else some row.original_request
    substitution_reason := if row.was_substituted = "1" then some "out_of_stock" else none
    is_promo := false
    promo_type := none }

/-- The `audio_data` tuple of the loop body of `load_transactions` (built only
when `row['audio_transcript']` is non-empty). -/
def mkAudioData (row : Row) (wasSubstituted : ℤ) : AudioRecord :=
  { transaction_id := row.transaction_id
    audio_language := row.audio_language
    audio_duration_seconds := 120
    audio_quality := "clear"
    background_noise_level := "low"
    full_transcript := row.audio_transcript
    transcription_confidence := Rat.divInt 92 100
    key_phrases := [row.brand_name]
    request_type := if pyIn row.brand_name row.audio_transcript then "branded" else "generic"
    storeowner_influence := if row.was_substituted = "1" then "high" else "low"
    recommendation_given := wasSubstituted ≠ 0
    suggestion_accepted := wasSubstituted ≠ 0
    sentiment_score := Rat.divInt 75 100
    primary_intent := "purchase"
    brand_mentions := [row.brand_name]
    product_mentions := [row.product_name]
    price_mentioned := pyIn "pesos" (pyLower row.audio_transcript)
    promo_inquiry := pyIn "promo" (pyLower row.audio_transcript) }

/-- The `video_data` tuple of the loop body of `load_transactions` (built only
when `row['video_objects']` is non-empty). -/
def mkVideoData (row : Row) : VideoRecord :=
  { transaction_id := row.transaction_id
    objects_detected := pySplit row.video_objects '|'
    people_count := 2
    products_visible := [row.product_name]
    shelf_visibility := "full"
    browsing_duration_seconds := 60
    products_touched := 1
    decision_time_seconds := 30
    path_taken := none
    lighting_quality := "good"
    store_organization := "organized"
    queue_length := 0
    looked_at_promo := false
    promo_materials_visible := [] }

/-- The body of the `for row in reader` loop of `load_transactions`, up to the
point where the four tuples are appended to their batch lists: parses the
timestamp, resolves the customer UUID through `customer_map.get`, and builds
`trans_data`, `item_data`, and the optional `audio_data` / `video_data`.
A `.error` models a Python exception escaping the loop body (there is no
per-row `try/except` in the source). -/
def processRow (customerMap : String → Option String) (row : Row) :
    Except LoadError (TransRecord × ItemRecord × Option AudioRecord × Option VideoRecord) := do
  let timestamp ← req "timestamp" (fromisoformat row.timestamp)
  let customerUuid := customerMap row.customer_id
  let pesoValue ← req "peso_value" (pyFloat row.peso_value)
  let quantity ← req "quantity" (pyInt row.quantity)
  let hourOfDay ← req "hour_of_day" (pyInt row.hour_of_day)
  let transData := mkTransData row timestamp customerUuid pesoValue quantity hourOfDay
  let unitPrice ← req "unit_price" (pyFloat row.unit_price)
  let wasSubstituted ← req "was_substituted" (pyInt row.was_substituted)
  let itemData := mkItemData row quantity unitPrice pesoValue wasSubstituted
  let audioData : Option AudioRecord :=
    if row.audio_transcript = "" then none else some (mkAudioData row wasSubstituted)
  let videoData : Option VideoRecord :=
    if row.video_objects = "" then none else some (mkVideoData row)
  .ok (transData, itemData, audioData, videoData)

/-- Attributes retained for a product key the first time it is observed
(`self.products[sku_id]` in `extract_entities`). -/
structure ProductInfo where
  brand_name : String
  product_name : String
  category : String
  subcategory : String
  unit_price : ℚ
deriving Repr, DecidableEq

/-- The loader's entity-tracking state: `self.brands` (keys, first-seen
order), `self.products`, and the `self.stores` / `self.customers` /
`self.campaigns` sets (modelled as duplicate-free lists; the Python sets are
unordered, and no property proved here depends on their order). -/
structure Registry where
  brands : List String
  products : List (String × ProductInfo)
  stores : List String
  customers : List String
  campaigns : List String
deriving Repr, DecidableEq

/-- The body of the `for row in reader` loop of `extract_entities`: registers
the row's brand, product (parsing `unit_price` with `float`), store, customer
(if non-empty) and campaign (if non-empty), each only the first time its key
is seen. -/
def observe (reg : Registry) (row : Row) : Except LoadError Registry := do
  let brands :=
    if reg.brands.contains row.brand_name then reg.brands
    else reg.brands ++ [row.brand_name]
  let products ←
    if (reg.products.lookup row.sku_id).isSome then .ok reg.products
    else do
      let unitPrice ← req "unit_price" (pyFloat row.unit_price)
      .ok (reg.products ++ [(row.sku_id,
        { brand_name := row.brand_name
          product_name := row.product_name
          category := row.product_category
          subcategory := row.product_subcat
          unit_price := unitPrice })])
  let stores :=
    if reg.stores.contains row.store_id then reg.stores
    else reg.stores ++ [row.store_id]
  let customers :=
    if row.customer_id ≠ "" ∧ ¬ reg.customers.contains row.customer_id then
      reg.customers ++ [row.customer_id]
    else reg.customers
  let campaigns :=
    if row.campaign_id ≠ "" ∧ ¬ reg.campaigns.contains row.campaign_id then
      reg.campaigns ++ [row.campaign_id]
    else reg.campaigns
  .ok { brands := brands, products := products, stores := stores,
        customers := customers, campaigns := campaigns }

/-- The hard-coded partner-client list of `load_brands`
(`tbwa_clients` in the source). -/
def tbwaClients : List String :=
  ["Alaska", "Marlboro", "Tide", "Coca-Cola", "Head & Shoulders"]

/-- `load_brands`: for each observed brand name, the `is_tbwa_client` value
bound to the `brands` INSERT is membership in the hard-coded list.  (The
surrogate `brand_id` the database returns is not modelled; no property here
depends on it.) -/
def loadBrands (brands : List String) : List (String × Bool) :=
  brands.map (fun name => (name, tbwaClients.contains name))

/-- The hard-coded campaign-name mapping of `load_campaigns`. -/
def campaignNames : List (String × String) :=
  [("CAMP001", "Summer Sarap 2024"),
   ("CAMP002", "Payday Promo March"),
   ("CAMP003", "New Variant Launch"),
   ("CAMP004", "Back to School")]

/-- `load_campaigns`: only campaign keys present in the hard-coded mapping are
inserted (id, name, `'below_the_line'`); any other observed campaign key is
silently dropped. -/
def loadCampaigns (campaigns : List String) : List (String × String × String) :=
  campaigns.filterMap (fun c =>
    (campaignNames.lookup c).map (fun n => (c, n, "below_the_line")))

/-- The per-store attribute record `load_stores` extracts from the first row
carrying a given `store_id` (latitude/longitude parsed with `float`). -/
def storeInfoOf (row : Row) : Except LoadError
    (String × String × String × String × String × String × ℚ × ℚ × String) := do
  let lat ← req "latitude" (pyFloat row.latitude)
  let lng ← req "longitude" (pyFloat row.longitude)
  .ok (row.store_name, row.store_type, row.region, row.province,
       row.city_municipality, row.barangay, lat, lng, row.economic_class)

/-- The per-customer attribute record `load_customers` extracts from the first
row carrying a given non-empty `customer_id`. -/
def customerInfoOf (row : Row) : String × String :=
  (row.gender, row.age_bracket)

/-- Semantics of the `transactions` INSERT, which carries
`ON CONFLICT (transaction_id) DO NOTHING`: the row is appended only when no
row with its `transaction_id` is present. -/
def insertTransactionRow (db : List TransRecord) (t : TransRecord) : List TransRecord :=
  if db.any (fun u => u.transaction_id = t.transaction_id) then db else db ++ [t]

/-- Semantics of the `transaction_items` INSERT, which carries no conflict
clause: a plain append. -/
def insertItemRow (db : List ItemRecord) (i : ItemRecord) : List ItemRecord :=
  db ++ [i]

/-- `execute_batch` over the `transactions` INSERT. -/
def insertTransactionBatch (db : List TransRecord) (batch : List TransRecord) :
    List TransRecord :=
  batch.foldl insertTransactionRow db

/-- `execute_batch` over the `transaction_items` INSERT. -/
def insertItemBatch (db : List ItemRecord) (batch : List ItemRecord) : List ItemRecord :=
  batch.foldl insertItemRow db

/-- One observable storage action of `_insert_transaction_batch`: a batched
INSERT into one of the four fact tables, or the final `conn.commit()`. -/
inductive Event where
  | writeTrans (batch : List TransRecord)
  | writeItems (batch : List ItemRecord)
  | writeAudio (batch : List AudioRecord)
  | writeVideo (batch : List VideoRecord)
  | commit
deriving Repr, DecidableEq

/-- Statement order within `_insert_transaction_batch`, for stating that the
emitted trace is ordered: transactions, items, audio, video, commit. -/
def evOrder : Event → ℕ
  | .writeTrans _ => 0
  | .writeItems _ => 1
  | .writeAudio _ => 2
  | .writeVideo _ => 3
  | .commit => 4

/-- Is this event the commit? -/
def isCommitEv : Event → Bool
  | .commit => true
  | _ => false

/-- The four per-table fact buffers of `load_transactions`
(`trans_batch`, `items_batch`, `audio_batch`, `video_batch`). -/
structure Buffers where
  transB : List TransRecord
  itemsB : List ItemRecord
  audioB : List AudioRecord
  videoB : List VideoRecord
deriving Repr, DecidableEq

/-- The empty buffer state. -/
def Buffers.empty : Buffers := ⟨[], [], [], []⟩

/-- The storage trace of one `_insert_transaction_batch` call: transactions
INSERT, items INSERT, audio INSERT (only when the audio batch is non-empty,
per the `if audio_batch:` guard), video INSERT (likewise), then one
`conn.commit()`. -/
def flushEvents (b : Buffers) : List Event :=
  [Event.writeTrans b.transB, Event.writeItems b.itemsB]
    ++ (if b.audioB = [] then [] else [Event.writeAudio b.audioB])
    ++ (if b.videoB = [] then [] else [Event.writeVideo b.videoB])
    ++ [Event.commit]

/-- Appending one processed row's records to the four buffers. -/
def appendRow (b : Buffers) (t : TransRecord) (i : ItemRecord)
    (a : Option AudioRecord) (v : Option VideoRecord) : Buffers :=
  { transB := b.transB ++ [t]
    itemsB := b.itemsB ++ [i]
    audioB := b.audioB ++ a.toList
    videoB := b.videoB ++ v.toList }

/-- One iteration of the row loop of `load_transactions`: process the row,
append to the buffers, and when `len(trans_batch) >= self.batch_size` call
`_insert_transaction_batch` on all four buffers and reset them. -/
def stepRow (batchSize : ℕ) (customerMap : String → Option String)
    (st : Buffers × List Event) (row : Row) : Except LoadError (Buffers × List Event) := do
  let (t, i, a, v) ← processRow customerMap row
  let b := appendRow st.1 t i a v
  if batchSize ≤ b.transB.length then
    .ok (Buffers.empty, st.2 ++ flushEvents b)
  else
    .ok (b, st.2)

/-- The default `batch_size` of `DataLoader.__init__`. -/
def defaultBatchSize : ℕ := 1000

/-- `load_transactions`: fold the row loop over the input, then flush the
remaining buffers when `trans_batch` is non-empty.  The result is the storage
trace; a `.error` models a Python exception escaping the loop, which `run`
turns into a rollback and abort of the whole load. -/
def loadTransactions (batchSize : ℕ) (customerMap : String → Option String)
    (rows : List Row) : Except LoadError (List Event) := do
  let (b, evs) ← rows.foldlM (stepRow batchSize customerMap) (Buffers.empty, [])
  if b.transB = [] then .ok evs else .ok (evs ++ flushEvents b)

/-- The buffer-size invariant of the row loop: every row contributes exactly
one transaction record and one item record, and at most one audio and one
video record, so the trans buffer is always the longest. -/
def invBuffers (b : Buffers) : Prop :=
  b.itemsB.length = b.transB.length ∧
  b.audioB.length ≤ b.transB.length ∧
  b.videoB.length ≤ b.transB.length

instance : DecidablePred invBuffers := fun b => by
  unfold invBuffers; infer_instance

/-- A `customer_map` over an empty `customers` table (`dict.get` misses on
every key). -/
def noCustomers : String → Option String := fun _ => none

/-- Projection: the transaction record a row fans out to, when processing
succeeds. -/
def rowTrans (customerMap : String → Option String) (row : Row) : Option TransRecord :=
  (processRow customerMap row).toOption.map (fun r => r.1)

/-- Projection: the item record a row fans out to, when processing
succeeds. -/
def rowItem (customerMap : String → Option String) (row : Row) : Option ItemRecord :=
  (processRow customerMap row).toOption.map (fun r => r.2.1)

/-- Projection: the optional audio record a row fans out to, when processing
succeeds. -/
def rowAudio (customerMap : String → Option String) (row : Row) :
    Option (Option AudioRecord) :=
  (processRow customerMap row).toOption.map (fun r => r.2.2.1)

/-- Modelled from the spec: the item total the specification prescribes,
`total = quantity × unit price, rounded to 2 decimal places using
round-half-away-from-zero` (the code has no such computation; this definition
exists only to be compared against the code's behaviour).  For
`q × u = (q·u.num)/u.den`, the value rounded half-away-from-zero to two
decimals is `±⌊(2·|100·q·u.num| + u.den) / (2·u.den)⌋ / 100`. -/
def specTotalPrice (q : ℤ) (u : ℚ) : ℚ :=
  let n : ℤ := 100 * q * u.num
  let magnitude : ℕ := (2 * n.natAbs + u.den) / (2 * u.den)
  Rat.divInt (if n < 0 then -(magnitude : ℤ) else (magnitude : ℤ)) 100

/-- A well-formed sample row (values in the shape the generator emits),
used to instantiate witnesses and counterexamples. -/
def baseRow : Row :=
  { transaction_id := "TXN0001"
    timestamp := "2024-03-15T09:30:00"
    store_id := "ST001"
    store_name := "Aling Nena Store"
    store_type := "sari-sari"
    region := "NCR"
    province := "Metro Manila"
    city_municipality := "Quezon City"
    barangay := "Commonwealth"
    latitude := "14.6760"
    longitude := "121.0437"
    economic_class := "C"
    customer_id := "CUST001"
    gender := "F"
    age_bracket := "25-34"
    sku_id := "ALS001"
    brand_name := "Alaska"
    product_name := "Alaska Evap"
    product_category := "Dairy"
    product_subcat := "Milk"
    quantity := "2"
    unit_price := "10.0"
    peso_value := "20.0"
    is_tbwa_client := "1"
    campaign_id := "CAMP001"
    was_substituted := "0"
    original_request := ""
    audio_language := "Tagalog"
    audio_transcript := "Pabili po ng Alaska evap dalawa"
    video_objects := "person|shelf"
    weather := "sunny"
    day_of_week := "Friday"
    hour_of_day := "9" }

/-- The fanout of `baseRow` under the empty customer map (processing succeeds;
see `baseOut_spec`-style uses in the witnesses). -/
def baseOut : TransRecord × ItemRecord × Option AudioRecord × Option VideoRecord :=
  ((processRow noCustomers baseRow).toOption).get!

/-- The transaction record of `baseRow`'s fanout. -/
def baseTrans : TransRecord := baseOut.1

/-- The item record of `baseRow`'s fanout. -/
def baseItem : ItemRecord := baseOut.2.1

/-- The audio record of `baseRow`'s fanout. -/
def baseAudio : Option AudioRecord := baseOut.2.2.1

/-- The video record of `baseRow`'s fanout. -/
def baseVideo : Option VideoRecord := baseOut.2.2.2

/-- The buffers after `baseRow`'s fanout is appended to empty buffers. -/
def baseBuf : Buffers := appendRow Buffers.empty baseTrans baseItem baseAudio baseVideo

/-- A row whose customer key was never registered and whose campaign key is
outside the hard-coded campaign-name mapping. -/
def C2row : Row := { baseRow with customer_id := "CUST999", campaign_id := "CAMP999" }

/-- A row whose timestamp does not parse as ISO-8601. -/
def C3badRow : Row := { baseRow with transaction_id := "TXN0002", timestamp := "not-a-timestamp" }

/-- A row whose `peso_value` differs from quantity × unit price
(quantity 2 × unit price 10.0 = 20, but `peso_value` = 15.0). -/
def C4row : Row := { baseRow with peso_value := "15.0" }

/-- Same timestamp as `baseRow`, but a contradicting `day_of_week` field. -/
def C5rowA : Row := { baseRow with day_of_week := "Monday" }

/-- Same timestamp as `baseRow`, but a contradicting `hour_of_day` field. -/
def C5rowB : Row := { baseRow with hour_of_day := "23" }

/-- A substituted row whose free-text `original_request` field is empty. -/
def C7row : Row := { baseRow with was_substituted := "1", original_request := "" }

@[simp] theorem ok_bind {ε α β : Type _} (a : α) (f : α → Except ε β) :
    (Except.ok a >>= f : Except ε β) = f a := rfl

@[simp] theorem error_bind {ε α β : Type _} (e : ε) (f : α → Except ε β) :
    (Except.error e >>= f : Except ε β) = .error e := rfl

/-- Inversion of a successful `processRow`: every field coercion succeeded and
the four records are the corresponding tuple builders' outputs. -/
theorem processRow_ok_inv {customerMap : String → Option String} {row : Row}
    {t : TransRecord} {i : ItemRecord} {a : Option AudioRecord} {v : Option VideoRecord}
    (h : processRow customerMap row = .ok (t, i, a, v)) :
    ∃ ts pv q hd up ws,
      fromisoformat row.timestamp = some ts ∧
      pyFloat row.peso_value = some pv ∧
      pyInt row.quantity = some q ∧
      pyInt row.hour_of_day = some hd ∧
      pyFloat row.unit_price = some up ∧
      pyInt row.was_substituted = some ws ∧
      t = mkTransData row ts (customerMap row.customer_id) pv q hd ∧
      i = mkItemData row q up pv ws ∧
      a = (if row.audio_transcript = "" then none else some (mkAudioData row ws)) ∧
      v = (if row.video_objects = "" then none else some (mkVideoData row)) := by
  unfold processRow at h
  cases hts : fromisoformat row.timestamp with
  | none => rw [hts] at h; simp [req] at h
  | some ts =>
  rw [hts] at h
  cases hpv : pyFloat row.peso_value with
  | none => rw [hpv] at h; simp [req] at h
  | some pv =>
  rw [hpv] at h
  cases hq : pyInt row.quantity with
  | none => rw [hq] at h; simp [req] at h
  | some q =>
  rw [hq] at h
  cases hhd : pyInt row.hour_of_day with
  | none => rw [hhd] at h; simp [req] at h
  | some hd =>
  rw [hhd] at h
  cases hup : pyFloat row.unit_price with
  | none => rw [hup] at h; simp [req] at h
  | some up =>
  rw [hup] at h
  cases hws : pyInt row.was_substituted with
  | none => rw [hws] at h; simp [req] at h
  | some ws =>
  rw [hws] at h
  simp [req] at h
  exact ⟨ts, pv, q, hd, up, ws, rfl, rfl, rfl, rfl, rfl, rfl,
    h.1.symm, h.2.1.symm, h.2.2.1.symm, h.2.2.2.symm⟩

/-- Claim C4 (corrected): at a concrete row with quantity 2, unit price 10 and
`peso_value` 15, the produced item's total price is 15 — not the 20 the claim's
quantity × unit-price (rounded) formula prescribes. -/
theorem total_price_not_product_cex :
    (rowItem noCustomers C4row).map (fun i => (i.quantity, i.unit_price, i.total_price))
      = some (2, 10, 15) ∧
    specTotalPrice 2 10 = 20 ∧
    ¬ ((15 : ℚ) = specTotalPrice 2 10) := by decide

/-- Claim C4 (amended): for every successfully processed input row, the
transaction item's total price is copied verbatim from the row's `peso_value`
field (`float(row['peso_value'])`); it is not computed from quantity and unit
price. -/
theorem total_price_copied_from_peso_value :
    ∀ (customerMap : String → Option String) (row : Row)
      (t : TransRecord) (i : ItemRecord) (a : Option AudioRecord) (v : Option VideoRecord),
      processRow customerMap row = .ok (t, i, a, v) →
      some i.total_price = pyFloat row.peso_value := by
  intro customerMap row t i a v h
  obtain ⟨ts, pv, q, hd, up, ws, _, hpv, _, _, _, _, _, hi, _, _⟩ := processRow_ok_inv h
  subst hi
  simp [mkItemData, hpv]

/-- Witness for C4's amended theorem at `baseRow`. -/
theorem total_price_copied_from_peso_value_witness :
    processRow noCustomers baseRow = .ok (baseTrans, baseItem, baseAudio, baseVideo) ∧
    some baseItem.total_price = pyFloat baseRow.peso_value :=
  ⟨by decide,
   total_price_copied_from_peso_value noCustomers baseRow baseTrans baseItem baseAudio baseVideo
     (by decide)⟩

/-- Claim C5 (corrected): two rows sharing the same timestamp but differing in
their `day_of_week` / `hour_of_day` CSV fields produce transactions with
different derived fields — so those fields are not computed from the parsed
timestamp. -/
theorem temporal_fields_not_from_timestamp_cex :
    C5rowA.timestamp = baseRow.timestamp ∧ C5rowB.timestamp = baseRow.timestamp ∧
    (rowTrans noCustomers C5rowA).map (fun t => t.day_of_week) = some "Monday" ∧
    (rowTrans noCustomers baseRow).map (fun t => t.day_of_week) = some "Friday" ∧
    (rowTrans noCustomers C5rowB).map (fun t => t.hour_of_day) = some 23 ∧
    (rowTrans noCustomers baseRow).map (fun t => t.hour_of_day) = some 9 := by decide

/-- Claim C5 (amended): for every successfully processed input row, the
transaction fact's day-of-week name is copied verbatim from the row's
`day_of_week` field and its hour-of-day integer is `int(row['hour_of_day'])`;
neither is computed from the parsed timestamp. -/
theorem temporal_fields_copied_from_row :
    ∀ (customerMap : String → Option String) (row : Row)
      (t : TransRecord) (i : ItemRecord) (a : Option AudioRecord) (v : Option VideoRecord),
      processRow customerMap row = .ok (t, i, a, v) →
      t.day_of_week = row.day_of_week ∧ some t.hour_of_day = pyInt row.hour_of_day := by
  intro customerMap row t i a v h
  obtain ⟨ts, pv, q, hd, up, ws, _, _, _, hhd, _, _, ht, _, _, _⟩ := processRow_ok_inv h
  subst ht
  simp [mkTransData, hhd]

/-- Witness for C5's amended theorem at `baseRow`. -/
theorem temporal_fields_copied_from_row_witness :
    processRow noCustomers baseRow = .ok (baseTrans, baseItem, baseAudio, baseVideo) ∧
    baseTrans.day_of_week = baseRow.day_of_week ∧
    some baseTrans.hour_of_day = pyInt baseRow.hour_of_day :=
  ⟨by decide,
   temporal_fields_copied_from_row noCustomers baseRow baseTrans baseItem baseAudio baseVideo
     (by decide)⟩

/-- Claim C6 (confirmed): for every successfully processed input row, the
transaction's is-payday flag is true exactly when the day-of-month of the
row's parsed timestamp is 15 or 30 (`timestamp.day in [15, 30]` — the literal
rule, not true end-of-month). -/
theorem is_payday_literal_rule :
    ∀ (customerMap : String → Option String) (row : Row)
      (t : TransRecord) (i : ItemRecord) (a : Option AudioRecord) (v : Option VideoRecord)
      (ts : PyDateTime),
      processRow customerMap row = .ok (t, i, a, v) →
      fromisoformat row.timestamp = some ts →
      (t.is_payday = true ↔ (ts.day = 15 ∨ ts.day = 30)) := by
  intro customerMap row t i a v ts h hts
  obtain ⟨ts', pv, q, hd, up, ws, hts', _, _, _, _, _, ht, _, _, _⟩ := processRow_ok_inv h
  rw [hts] at hts'
  injection hts' with e
  subst e
  subst ht
  simp [mkTransData]

/-- Witness for C6's theorem at `baseRow`, whose timestamp falls on day 15. -/
theorem is_payday_literal_rule_witness :
    processRow noCustomers baseRow = .ok (baseTrans, baseItem, baseAudio, baseVideo) ∧
    fromisoformat baseRow.timestamp = some ⟨2024, 3, 15, 9, 30, 0⟩ ∧
    (baseTrans.is_payday = true ↔
      ((⟨2024, 3, 15, 9, 30, 0⟩ : PyDateTime).day = 15 ∨
       (⟨2024, 3, 15, 9, 30, 0⟩ : PyDateTime).day = 30)) :=
  ⟨by decide, by decide,
   is_payday_literal_rule noCustomers baseRow baseTrans baseItem baseAudio baseVideo
     ⟨2024, 3, 15, 9, 30, 0⟩ (by decide) (by decide)⟩

/-- Claim C7 (corrected): at a row with substitution flag `"1"` and an empty
`original_request` field, the produced item has a null `original_request`
while its substitution reason is non-null — contradicting "for substitution
true, both are non-null". -/
theorem substitution_nullability_cex :
    (rowItem noCustomers C7row).map
        (fun i => (i.was_substituted, i.original_sku_id, i.substitution_reason))
      = some (true, none, some "out_of_stock") := by decide

/-- Claim C7 (amended): for every successfully processed input row, the item's
`original_request` value is the row's `original_request` field when that field
is non-empty and null otherwise — independent of the substitution flag — and
the substitution reason is the fixed code exactly when the row's substitution
flag string equals `"1"`. -/
theorem substitution_fields_semantics :
    ∀ (customerMap : String → Option String) (row : Row)
      (t : TransRecord) (i : ItemRecord) (a : Option AudioRecord) (v : Option VideoRecord),
      processRow customerMap row = .ok (t, i, a, v) →
      i.original_sku_id = (if row.original_request = "" then none else some row.original_request) ∧
      i.substitution_reason =
        (if row.was_substituted = "1" then some "out_of_stock" else none) := by
  intro customerMap row t i a v h
  obtain ⟨ts, pv, q, hd, up, ws, _, _, _, _, _, _, _, hi, _, _⟩ := processRow_ok_inv h
  subst hi
  simp [mkItemData]

/-- Witness for C7's amended theorem at `baseRow`. -/
theorem substitution_fields_semantics_witness :
    processRow noCustomers baseRow = .ok (baseTrans, baseItem, baseAudio, baseVideo) ∧
    baseItem.original_sku_id =
      (if baseRow.original_request = "" then none else some baseRow.original_request) ∧
    baseItem.substitution_reason =
      (if baseRow.was_substituted = "1" then some "out_of_stock" else none) :=
  ⟨by decide,
   substitution_fields_semantics noCustomers baseRow baseTrans baseItem baseAudio baseVideo
     (by decide)⟩

/-- Claim C8 (confirmed): for every successfully processed input row, an
audio-transcript fact exists exactly when the row's transcript field is
non-empty (and then exactly one, the fanout being an `Option`); its intent
classification is `"branded"` exactly when the brand name occurs verbatim
(case-sensitively) as a substring of the transcript and `"generic"` otherwise;
and the price-mention and promo-inquiry booleans are case-insensitive
substring tests of the transcript against the fixed keywords `"pesos"` and
`"promo"`. -/
theorem audio_gating_and_intent :
    ∀ (customerMap : String → Option String) (row : Row)
      (t : TransRecord) (i : ItemRecord) (a : Option AudioRecord) (v : Option VideoRecord),
      processRow customerMap row = .ok (t, i, a, v) →
      ((a = none) ↔ row.audio_transcript = "") ∧
      (∀ ar, a = some ar →
        (ar.request_type = "branded" ↔ pyIn row.brand_name row.audio_transcript = true) ∧
        (ar.request_type = "generic" ↔ pyIn row.brand_name row.audio_transcript = false) ∧
        ar.price_mentioned = pyIn "pesos" (pyLower row.audio_transcript) ∧
        ar.promo_inquiry = pyIn "promo" (pyLower row.audio_transcript)) := by
  intro customerMap row t i a v h
  obtain ⟨ts, pv, q, hd, up, ws, _, _, _, _, _, _, _, _, ha, _⟩ := processRow_ok_inv h
  subst ha
  constructor
  · constructor
    · intro he
      by_contra hne
      rw [if_neg hne] at he
      exact Option.noConfusion he
    · intro he
      rw [if_pos he]
  · intro ar har
    by_cases he : row.audio_transcript = ""
    · rw [if_pos he] at har
      exact Option.noConfusion har
    · rw [if_neg he] at har
      injection har with e
      subst e
      refine ⟨?_, ?_, rfl, rfl⟩
      · cases hb : pyIn row.brand_name row.audio_transcript <;>
          simp [mkAudioData, hb]
      · cases hb : pyIn row.brand_name row.audio_transcript <;>
          simp [mkAudioData, hb]

/-- Witness for C8's theorem at `baseRow`, whose transcript is non-empty and
mentions the brand verbatim. -/
theorem audio_gating_and_intent_witness :
    processRow noCustomers baseRow = .ok (baseTrans, baseItem, baseAudio, baseVideo) ∧
    ((baseAudio = none) ↔ baseRow.audio_transcript = "") ∧
    (∀ ar, baseAudio = some ar →
      (ar.request_type = "branded" ↔ pyIn baseRow.brand_name baseRow.audio_transcript = true) ∧
      (ar.request_type = "generic" ↔ pyIn baseRow.brand_name baseRow.audio_transcript = false) ∧
      ar.price_mentioned = pyIn "pesos" (pyLower baseRow.audio_transcript) ∧
      ar.promo_inquiry = pyIn "promo" (pyLower baseRow.audio_transcript)) :=
  ⟨by decide,
   (audio_gating_and_intent noCustomers baseRow baseTrans baseItem baseAudio baseVideo
     (by decide)).1,
   (audio_gating_and_intent noCustomers baseRow baseTrans baseItem baseAudio baseVideo
     (by decide)).2⟩

/-- Claim C2 (corrected): at a row whose customer key was never registered and
whose campaign key is outside the hard-coded mapping, the loader succeeds and
writes the transaction fact with a silently null customer surrogate and the
unregistered campaign key carried verbatim, while `load_campaigns` never
inserts that campaign key — the fail-fast behaviour the claim asserts does not
exist. -/
theorem unresolved_reference_not_fatal_cex :
    (processRow noCustomers C2row).isOk = true ∧
    (rowTrans noCustomers C2row).map (fun t => (t.customer_id, t.campaign_id))
      = some (none, some "CAMP999") ∧
    loadCampaigns ["CAMP999"] = [] := by decide

/-- Claim C2 (amended): the loader never fails on an unresolved natural key.
Whenever every field coercion of a row succeeds, processing succeeds — for any
customer map whatsoever — and the fact row carries `customer_map.get`'s result
(null when the key was never registered) and the raw campaign key (null only
when empty); and `load_campaigns` only ever registers keys of the hard-coded
mapping, so any other referenced campaign key dangles. -/
theorem unresolved_reference_silently_null :
    (∀ (customerMap : String → Option String) (row : Row),
      (fromisoformat row.timestamp).isSome = true →
      (pyFloat row.peso_value).isSome = true →
      (pyInt row.quantity).isSome = true →
      (pyInt row.hour_of_day).isSome = true →
      (pyFloat row.unit_price).isSome = true →
      (pyInt row.was_substituted).isSome = true →
      ∃ t i a v, processRow customerMap row = .ok (t, i, a, v) ∧
        t.customer_id = customerMap row.customer_id ∧
        t.campaign_id = (if row.campaign_id = "" then none else some row.campaign_id)) ∧
    (∀ (campaigns : List String) (d : String × String × String),
      d ∈ loadCampaigns campaigns → (campaignNames.lookup d.1).isSome = true) := by
  constructor
  · intro customerMap row h1 h2 h3 h4 h5 h6
    obtain ⟨ts, hts⟩ := Option.isSome_iff_exists.mp h1
    obtain ⟨pv, hpv⟩ := Option.isSome_iff_exists.mp h2
    obtain ⟨q, hq⟩ := Option.isSome_iff_exists.mp h3
    obtain ⟨hd, hhd⟩ := Option.isSome_iff_exists.mp h4
    obtain ⟨up, hup⟩ := Option.isSome_iff_exists.mp h5
    obtain ⟨ws, hws⟩ := Option.isSome_iff_exists.mp h6
    refine ⟨mkTransData row ts (customerMap row.customer_id) pv q hd,
      mkItemData row q up pv ws,
      (if row.audio_transcript = "" then none else some (mkAudioData row ws)),
      (if row.video_objects = "" then none else some (mkVideoData row)), ?_, rfl, rfl⟩
    simp [processRow, req, hts, hpv, hq, hhd, hup, hws]
  · intro campaigns d hd
    obtain ⟨c, _, hmap⟩ := List.mem_filterMap.mp hd
    obtain ⟨n, hn, he⟩ := Option.map_eq_some'.mp hmap
    subst he
    simp [hn]

/-- Witness for C2's amended theorem at `C2row` (unregistered customer key
`CUST999`, unregistered campaign key `CAMP999`) and at a registered
campaign. -/
theorem unresolved_reference_silently_null_witness :
    (fromisoformat C2row.timestamp).isSome = true ∧
    (pyFloat C2row.peso_value).isSome = true ∧
    (pyInt C2row.quantity).isSome = true ∧
    (pyInt C2row.hour_of_day).isSome = true ∧
    (pyFloat C2row.unit_price).isSome = true ∧
    (pyInt C2row.was_substituted).isSome = true ∧
    (∃ t i a v, processRow noCustomers C2row = .ok (t, i, a, v) ∧
      t.customer_id = noCustomers C2row.customer_id ∧
      t.campaign_id = (if C2row.campaign_id = "" then none else some C2row.campaign_id)) ∧
    ("CAMP001", "Summer Sarap 2024", "below_the_line") ∈ loadCampaigns ["CAMP001"] ∧
    (campaignNames.lookup ("CAMP001", "Summer Sarap 2024", "below_the_line").1).isSome = true :=
  ⟨by decide, by decide, by decide, by decide, by decide, by decide,
   unresolved_reference_silently_null.1 noCustomers C2row (by decide) (by decide) (by decide)
     (by decide) (by decide) (by decide),
   by decide,
   unresolved_reference_silently_null.2 ["CAMP001"]
     ("CAMP001", "Summer Sarap 2024", "below_the_line") (by decide)⟩

/-- Claim C3 (corrected): a run whose first row has a malformed timestamp and
whose second row is well-formed aborts with the row-scoped error instead of
skipping the bad row and loading the good one — the loop has no per-row
error handling. -/
theorem malformed_row_aborts_run_cex :
    loadTransactions defaultBatchSize noCustomers [C3badRow, baseRow]
      = .error (.malformed "timestamp") ∧
    (processRow noCustomers baseRow).isOk = true := by decide

/-- Claim C3 (amended): a malformed field in any input row aborts the entire
remaining run: once a row fails to process, the row loop — started from any
buffer state — propagates that row's error, and `load_transactions` on an
input beginning with such a row returns it; no row is skipped-and-continued. -/
theorem malformed_row_aborts_run :
    ∀ (batchSize : ℕ) (customerMap : String → Option String)
      (st : Buffers × List Event) (row : Row) (rest : List Row) (e : LoadError),
      processRow customerMap row = .error e →
      List.foldlM (stepRow batchSize customerMap) st (row :: rest) = .error e ∧
      loadTransactions batchSize customerMap (row :: rest) = .error e := by
  intro batchSize customerMap st row rest e h
  have h1 : ∀ st' : Buffers × List Event, stepRow batchSize customerMap st' row = .error e := by
    intro st'
    simp [stepRow, h]
  constructor
  · simp [List.foldlM_cons, h1]
  · simp [loadTransactions, List.foldlM_cons, h1]

/-- Witness for C3's amended theorem at a concrete malformed row followed by a
well-formed row. -/
theorem malformed_row_aborts_run_witness :
    processRow noCustomers C3badRow = .error (.malformed "timestamp") ∧
    List.foldlM (stepRow defaultBatchSize noCustomers) (Buffers.empty, []) [C3badRow, baseRow]
      = .error (.malformed "timestamp") ∧
    loadTransactions defaultBatchSize noCustomers [C3badRow, baseRow]
      = .error (.malformed "timestamp") :=
  ⟨by decide,
   (malformed_row_aborts_run defaultBatchSize noCustomers (Buffers.empty, []) C3badRow [baseRow]
     (.malformed "timestamp") (by decide)).1,
   (malformed_row_aborts_run defaultBatchSize noCustomers (Buffers.empty, []) C3badRow [baseRow]
     (.malformed "timestamp") (by decide)).2⟩

/-- Claim C1 (corrected): replaying the same one-item batch against a table
that already holds it appends a second `transaction_items` row with the same
transaction identifier — the items INSERT has no conflict clause, so a second
run does duplicate item rows (the transactions INSERT alone is protected). -/
theorem items_insert_duplicates_on_rerun_cex :
    ((insertItemBatch (insertItemBatch [] [baseItem]) [baseItem]).filter
        (fun i => i.transaction_id == "TXN0001")).length = 2 ∧
    insertTransactionBatch (insertTransactionBatch [] [baseTrans]) [baseTrans]
      = [baseTrans] := by decide

/-- Claim C1 (amended): re-running is duplicate-free only for the transactions
table: a `transactions` batch whose identifiers are all already present
inserts nothing (`ON CONFLICT (transaction_id) DO NOTHING`), while a
`transaction_items` batch is always appended in full — its INSERT carries no
conflict clause — so a second run adds a second item row per input row. -/
theorem rerun_idempotence_trans_only :
    (∀ (db batch : List TransRecord),
      (∀ t ∈ batch, db.any (fun u => u.transaction_id = t.transaction_id)) →
      insertTransactionBatch db batch = db) ∧
    (∀ (db batch : List ItemRecord),
      (insertItemBatch db batch).length = db.length + batch.length) := by
  constructor
  · intro db batch
    induction batch generalizing db with
    | nil => intro _; rfl
    | cons t rest ih =>
      intro h
      have ht : insertTransactionRow db t = db := by
        have := h t (List.mem_cons_self t rest)
        simp [insertTransactionRow, this]
      calc insertTransactionBatch db (t :: rest)
          = insertTransactionBatch (insertTransactionRow db t) rest := rfl
        _ = insertTransactionBatch db rest := by rw [ht]
        _ = db := ih db (fun u hu => h u (List.mem_cons_of_mem t hu))
  · intro db batch
    induction batch generalizing db with
    | nil => simp [insertItemBatch]
    | cons i rest ih =>
      calc (insertItemBatch db (i :: rest)).length
          = (insertItemBatch (db ++ [i]) rest).length := rfl
        _ = (db ++ [i]).length + rest.length := ih (db ++ [i])
        _ = db.length + (i :: rest).length := by simp; omega

/-- Witness for C1's amended theorem: a one-row database replayed against the
same one-row batch. -/
theorem rerun_idempotence_trans_only_witness :
    (∀ t ∈ [baseTrans], [baseTrans].any (fun u => u.transaction_id = t.transaction_id)) ∧
    insertTransactionBatch [baseTrans] [baseTrans] = [baseTrans] ∧
    (insertItemBatch [baseItem] [baseItem]).length = [baseItem].length + [baseItem].length :=
  ⟨by decide,
   rerun_idempotence_trans_only.1 [baseTrans] [baseTrans] (by decide),
   rerun_idempotence_trans_only.2 [baseItem] [baseItem]⟩

/-- Claim C9 (confirmed): under the loop invariant (one transaction and one
item per row, at most one audio/video record per row, so the trans buffer is
always the longest), the code's flush trigger `len(trans_batch) >= batch_size`
fires exactly when any per-table buffer reaches the threshold; the flush hands
all four buffers to `_insert_transaction_batch` together and resets them all;
the emitted statement trace is ordered Transaction, Item, Audio, Video and
ends with exactly one commit; the invariant is preserved on both branches and
holds of the empty initial buffers; and the default batch size is 1000. -/
theorem batch_flush_semantics :
    ∀ (batchSize : ℕ) (customerMap : String → Option String) (evs : List Event)
      (b : Buffers) (row : Row) (t : TransRecord) (i : ItemRecord)
      (a : Option AudioRecord) (v : Option VideoRecord),
      processRow customerMap row = .ok (t, i, a, v) → invBuffers b →
      ((batchSize ≤ (appendRow b t i a v).transB.length ∨
        batchSize ≤ (appendRow b t i a v).itemsB.length ∨
        batchSize ≤ (appendRow b t i a v).audioB.length ∨
        batchSize ≤ (appendRow b t i a v).videoB.length) ↔
          batchSize ≤ (appendRow b t i a v).transB.length) ∧
      (batchSize ≤ (appendRow b t i a v).transB.length →
        stepRow batchSize customerMap (b, evs) row =
          .ok (Buffers.empty, evs ++ flushEvents (appendRow b t i a v))) ∧
      (¬ batchSize ≤ (appendRow b t i a v).transB.length →
        stepRow batchSize customerMap (b, evs) row = .ok (appendRow b t i a v, evs)) ∧
      ((flushEvents (appendRow b t i a v)).map evOrder).Sorted (· ≤ ·) ∧
      (flushEvents (appendRow b t i a v)).filter isCommitEv = [Event.commit] ∧
      (flushEvents (appendRow b t i a v)).getLast? = some Event.commit ∧
      invBuffers (appendRow b t i a v) ∧ invBuffers Buffers.empty ∧
      defaultBatchSize = 1000 := by
  intro batchSize customerMap evs b row t i a v h hinv
  obtain ⟨e1, e2, e3⟩ := hinv
  have hinv2 : invBuffers (appendRow b t i a v) := by
    cases a <;> cases v <;>
      simp [appendRow, invBuffers, Option.toList] <;> omega
  have hstep : stepRow batchSize customerMap (b, evs) row =
      if batchSize ≤ (appendRow b t i a v).transB.length
      then .ok (Buffers.empty, evs ++ flushEvents (appendRow b t i a v))
      else .ok (appendRow b t i a v, evs) := by
    simp [stepRow, h]
  obtain ⟨f1, f2, f3⟩ := hinv2
  refine ⟨by omega, ?_, ?_, ?_, ?_, ?_, ⟨f1, f2, f3⟩, by decide, rfl⟩
  · intro hc
    rw [hstep, if_pos hc]
  · intro hc
    rw [hstep, if_neg hc]
  · unfold flushEvents
    split_ifs <;> simp [evOrder]
  · unfold flushEvents
    split_ifs <;> simp [isCommitEv, List.filter]
  · unfold flushEvents
    exact List.getLast?_concat _

/-- Witness for C9's theorem: one row appended to empty buffers under batch
size 1, which triggers the flush. -/
theorem batch_flush_semantics_witness :
    processRow noCustomers baseRow = .ok (baseTrans, baseItem, baseAudio, baseVideo) ∧
    invBuffers Buffers.empty ∧
    (((1 ≤ baseBuf.transB.length ∨ 1 ≤ baseBuf.itemsB.length ∨
       1 ≤ baseBuf.audioB.length ∨ 1 ≤ baseBuf.videoB.length) ↔
        1 ≤ baseBuf.transB.length) ∧
     (1 ≤ baseBuf.transB.length →
       stepRow 1 noCustomers (Buffers.empty, []) baseRow =
         .ok (Buffers.empty, [] ++ flushEvents baseBuf)) ∧
     (¬ 1 ≤ baseBuf.transB.length →
       stepRow 1 noCustomers (Buffers.empty, []) baseRow = .ok (baseBuf, [])) ∧
     ((flushEvents baseBuf).map evOrder).Sorted (· ≤ ·) ∧
     (flushEvents baseBuf).filter isCommitEv = [Event.commit] ∧
     (flushEvents baseBuf).getLast? = some Event.commit ∧
     invBuffers baseBuf ∧ invBuffers Buffers.empty ∧
     defaultBatchSize = 1000) :=
  ⟨by decide, by decide,
   batch_flush_semantics 1 noCustomers [] Buffers.empty baseRow baseTrans baseItem baseAudio
     baseVideo (by decide) (by decide)⟩

/-- Claim C10 (confirmed): every brand flag `load_brands` binds to its INSERT
is true exactly when the brand name is in the hard-coded five-element list;
and no row-reading function of the loader — the `extract_entities` observer,
the fanout of `load_transactions`, the `load_stores` extraction, or the
`load_customers` extraction — depends on the row's `is_tbwa_client` field. -/
theorem tbwa_flag_hardcoded :
    (∀ (brands : List String) (name : String) (flag : Bool),
      (name, flag) ∈ loadBrands brands →
      (flag = true ↔ name ∈ ["Alaska", "Marlboro", "Tide", "Coca-Cola", "Head & Shoulders"])) ∧
    (∀ (row : Row) (s : String) (customerMap : String → Option String) (reg : Registry),
      processRow customerMap { row with is_tbwa_client := s } = processRow customerMap row ∧
      observe reg { row with is_tbwa_client := s } = observe reg row ∧
      storeInfoOf { row with is_tbwa_client := s } = storeInfoOf row ∧
      customerInfoOf { row with is_tbwa_client := s } = customerInfoOf row) := by
  constructor
  · intro brands name flag hmem
    obtain ⟨n, _, he⟩ := List.mem_map.mp hmem
    rw [Prod.mk.injEq] at he
    obtain ⟨rfl, rfl⟩ := he
    simp [tbwaClients, List.elem_iff]
  · intro row s customerMap reg
    exact ⟨rfl, rfl, rfl, rfl⟩

/-- Witness for C10's theorem at a two-brand universe containing one partner
brand. -/
theorem tbwa_flag_hardcoded_witness :
    ("Alaska", true) ∈ loadBrands ["Alaska", "Fita"] ∧
    (true = true ↔ "Alaska" ∈ ["Alaska", "Marlboro", "Tide", "Coca-Cola", "Head & Shoulders"]) :=
  ⟨by decide,
   tbwa_flag_hardcoded.1 ["Alaska", "Fita"] "Alaska" true (by decide)⟩

end PgLoader
